import Mathlib

/-!
Verification of the pipecat-runner bot server (src/main.py) as a shallow
embedding in Lean 4.

The service is a FastAPI facade with three HTTP handlers:
- `rtvi_connect` (POST /connect): provisions a session and returns
  `{"room_url": ..., "token": ...}` as JSON;
- `start_agent` (GET /direct): provisions a session and redirects to its URL;
- `get_status` (GET /status/{pid}): reports whether a tracked bot process is
  still running.

Provisioning is done by `start_bot`, which POSTs to the configured upstream
endpoint and reads the fields `dailyRoom` and `dailyToken` from the JSON
response.  We model the upstream response explicitly (status, raw text, and
an optional parsed JSON object given as an association list of string
fields), translate each handler to a pure function of that response, and
model the framework boundary: an uncaught exception is surfaced to the HTTP
caller as a 500 response carrying the exception message, an `HTTPException`
as a response with its given status and detail, and `RedirectResponse`
defaults to status 307.
-/

namespace PipecatRunner

/-- The upstream provisioning endpoint's HTTP response, as observed by
`start_bot`: status code, raw body text (what `r.text()` returns), and the
body parsed as a JSON object when it is one (`r.json()`; `none` when the body
is not a JSON object).  Fields of the object are modelled as string-valued,
which is all `start_bot` reads. -/
structure UpstreamResponse where
  status : Nat
  text : String
  json : Option (List (String × String))
deriving Repr, DecidableEq

/-- The exceptions `start_bot` can raise (src/main.py lines 129-140):
- `statusError`: `raise Exception(f"Unable to create room (status: {r.status}): {text}")`
  when `r.status != 200`;
- `jsonError`: `await r.json()` fails because the body is not JSON;
- `missingField`: `data["dailyRoom"]` / `data["dailyToken"]` raises `KeyError`. -/
inductive StartBotError where
  | statusError (status : Nat) (text : String)
  | jsonError
  | missingField (name : String)
deriving Repr, DecidableEq

/-- `async def start_bot() -> tuple[str, str]` (src/main.py lines 112-140),
as a function of the upstream response.  The code checks `r.status != 200`,
then parses the body as JSON and reads `data["dailyRoom"]` and
`data["dailyToken"]`, raising on any failure. -/
def start_bot (r : UpstreamResponse) : Except StartBotError (String × String) :=
  if r.status ≠ 200 then
    .error (.statusError r.status r.text)
  else
    match r.json with
    | none => .error .jsonError
    | some data =>
      match data.lookup "dailyRoom" with
      | none => .error (.missingField "dailyRoom")
      | some room_url =>
        match data.lookup "dailyToken" with
        | none => .error (.missingField "dailyToken")
        | some token => .ok (room_url, token)

/-- A JSON value as it appears in this service's response bodies: the
handlers only ever emit strings and integers. -/
inductive JsonValue where
  | str (s : String)
  | num (n : Nat)
deriving Repr, DecidableEq

/-- An HTTP response as seen by the caller of this service:
- `ok status body`: a JSON object response;
- `redirect status location`: a redirect whose `Location` header is `location`
  and whose body is empty;
- `error status detail`: an error response carrying `detail` in its body. -/
inductive HttpResult where
  | ok (status : Nat) (body : List (String × JsonValue))
  | redirect (status : Nat) (location : String)
  | error (status : Nat) (detail : String)
deriving Repr, DecidableEq

/-- The message of each exception `start_bot` raises.  The `statusError`
message is the f-string at src/main.py line 134; the other two are the
runtime's own messages (their exact text is not relied on by any theorem). -/
def exceptionMessage : StartBotError → String
  | .statusError status text =>
      "Unable to create room (status: " ++ toString status ++ "): " ++ text
  | .jsonError => "Attempt to decode JSON with unexpected mimetype"
  | .missingField name => "KeyError: " ++ name

/-- `async def rtvi_connect(request)` (POST /connect, src/main.py lines
160-176): calls `start_bot` and returns
`{"room_url": room_url, "token": token}`, which the framework serves with
status 200; an exception escaping the handler is surfaced as a 500 whose
detail is the exception message. -/
def rtvi_connect (r : UpstreamResponse) : HttpResult :=
  match start_bot r with
  | .error e => .error 500 (exceptionMessage e)
  | .ok (room_url, token) =>
      .ok 200 [("room_url", .str room_url), ("token", .str token)]

/-- `async def start_agent(request)` (GET /direct, src/main.py lines
143-157): calls `start_bot` and returns `RedirectResponse(room_url)`, whose
default status is 307; an exception escaping the handler is surfaced as a
500 whose detail is the exception message.  The token returned by
`start_bot` is bound but unused. -/
def start_agent (r : UpstreamResponse) : HttpResult :=
  match start_bot r with
  | .error e => .error 500 (exceptionMessage e)
  | .ok (room_url, _token) => .redirect 307 room_url

/-- A tracked bot process entry, the value of `bot_procs[pid]`
(src/main.py line 43: `{pid: (process, room_url)}`).  `alive` models
`proc[0].poll() is None` (the process has not exited). -/
structure ProcEntry where
  alive : Bool
  room_url : String
deriving Repr, DecidableEq

/-- `def get_status(pid)` (GET /status/{pid}, src/main.py lines 179-201):
looks `pid` up in `bot_procs`; when absent raises
`HTTPException(404, f"Bot with process id: {pid} not found")`, otherwise
returns `{"bot_id": pid, "status": "running" | "finished"}` according to the
liveness of the process handle. -/
def get_status (bot_procs : List (Nat × ProcEntry)) (pid : Nat) : HttpResult :=
  match bot_procs.lookup pid with
  | none => .error 404 ("Bot with process id: " ++ toString pid ++ " not found")
  | some proc =>
      .ok 200 [("bot_id", .num pid),
               ("status", .str (if proc.alive then "running" else "finished"))]

/-- The service's mutable state: the module-level dictionary `bot_procs`
(src/main.py line 43).  The `daily_helpers` dictionary only holds the shared
REST helper built at startup from immutable configuration, and no handler
reads or writes it other than the dead helper `create_room_and_token`, so it
is not part of the observable state. -/
structure ServerState where
  bot_procs : List (Nat × ProcEntry)
deriving Repr, DecidableEq

/-- The initial state: `bot_procs = {}` (src/main.py line 43). -/
def initState : ServerState := ⟨[]⟩

/-- `def cleanup()` (src/main.py lines 49-57), run at shutdown: terminates
every tracked process and waits for it to exit, so afterwards every entry's
handle reports exited; no entry is removed from the dictionary. -/
def cleanup (bot_procs : List (Nat × ProcEntry)) : List (Nat × ProcEntry) :=
  bot_procs.map (fun e => (e.1, { e.2 with alive := false }))

/-- The external events the service reacts to: one per HTTP handler, plus
the shutdown hook.  `connect` and `direct` carry the upstream provisioning
response their `start_bot` call observes. -/
inductive Event where
  | connect (r : UpstreamResponse)
  | direct (r : UpstreamResponse)
  | status (pid : Nat)
  | shutdown
deriving Repr, DecidableEq

/-- One step of the service: dispatch an event to its handler (src/main.py
lines 143-201) and to `cleanup` for shutdown.  No handler writes to
`bot_procs`: the only assignment to it in the source is its initialization
at line 43, and the process-spawning code that would insert into it is
absent. -/
def ServerState.step (s : ServerState) : Event → ServerState × Option HttpResult
  | .connect r => (s, some (rtvi_connect r))
  | .direct r => (s, some (start_agent r))
  | .status pid => (s, some (get_status s.bot_procs pid))
  | .shutdown => (⟨cleanup s.bot_procs⟩, none)

/-- Run the service over a sequence of events, threading the state. -/
def ServerState.run (s : ServerState) : List Event → ServerState
  | [] => s
  | e :: es => ((s.step e).1).run es

/-- The outbound-resource events of one `start_bot` call, in order:
`sessionOpen` is `aiohttp.ClientSession()`, `connAcquire`/`connRelease`
bracket the `async with aiohttp_session.post(...)` block (its `__aexit__`
releases the response's connection on both the normal and the raising exit),
and `sessionClose` would be `aiohttp_session.close()`. -/
inductive ResourceEvent where
  | sessionOpen
  | connAcquire
  | connRelease
  | sessionClose
deriving Repr, DecidableEq

/-- The resource trace of `start_bot` (src/main.py lines 122-140) on any
upstream response: the call builds a fresh `aiohttp.ClientSession` (line
122), enters the `async with ... post(...)` block, and leaves it either by
raising (status check, JSON parse, field access) or by returning — in every
case the block's exit releases the response's connection, and in no case is
`aiohttp_session.close()` called: the function has no such call on any path. -/
def start_bot_trace (_r : UpstreamResponse) : List ResourceEvent :=
  [.sessionOpen, .connAcquire, .connRelease]

/-! ## Theorems -/

/-- C1: for every provisioning call that succeeds and yields a pair
(session_url, access_token), the POST /connect endpoint responds HTTP 200
with a JSON body containing exactly the fields `room_url` and `token`,
whose values equal the provisioner's session_url and access_token unchanged. -/
theorem connect_passthrough (r : UpstreamResponse) (url token : String)
    (h : start_bot r = .ok (url, token)) :
    rtvi_connect r = .ok 200 [("room_url", .str url), ("token", .str token)] := by
  simp [rtvi_connect, h]

/-- Witness for C1 at the spec's concrete scenario: upstream returns
`{"dailyRoom": "https://x.example/room1", "dailyToken": "abc123"}` with
status 200. -/
theorem connect_passthrough_witness :
    start_bot ⟨200, "", some [("dailyRoom", "https://x.example/room1"),
        ("dailyToken", "abc123")]⟩ = .ok ("https://x.example/room1", "abc123") ∧
    rtvi_connect ⟨200, "", some [("dailyRoom", "https://x.example/room1"),
        ("dailyToken", "abc123")]⟩
      = .ok 200 [("room_url", .str "https://x.example/room1"),
                 ("token", .str "abc123")] :=
  ⟨rfl, connect_passthrough _ "https://x.example/room1" "abc123" rfl⟩

/-- C2: for every upstream provisioning response with a non-2xx HTTP status,
both POST /connect and GET /direct return HTTP 500, and the error body sent
to the HTTP caller contains the upstream status code and the upstream
response text. -/
theorem non2xx_gives_500 (r : UpstreamResponse)
    (h : ¬ (200 ≤ r.status ∧ r.status < 300)) :
    ∃ body : String,
      rtvi_connect r = .error 500 body ∧
      start_agent r = .error 500 body ∧
      (∃ a b, body = a ++ toString r.status ++ b) ∧
      (∃ c, body = c ++ r.text) := by
  have hne : r.status ≠ 200 := fun he => h (by omega)
  refine ⟨exceptionMessage (.statusError r.status r.text), ?_, ?_, ?_, ?_⟩
  · simp [rtvi_connect, start_bot, hne]
  · simp [start_agent, start_bot, hne]
  · exact ⟨"Unable to create room (status: ", "): " ++ r.text,
      by simp [exceptionMessage, String.append_assoc]⟩
  · exact ⟨"Unable to create room (status: " ++ toString r.status ++ "): ",
      by simp [exceptionMessage]⟩

/-- Witness for C2 at the spec's concrete scenario: upstream 401 with body
`"unauthorized"`. -/
theorem non2xx_gives_500_witness :
    ¬ ((200:Nat) ≤ 401 ∧ (401:Nat) < 300) ∧
    (∃ body : String,
      rtvi_connect ⟨401, "unauthorized", none⟩ = .error 500 body ∧
      start_agent ⟨401, "unauthorized", none⟩ = .error 500 body ∧
      (∃ a b, body = a ++ toString (401:Nat) ++ b) ∧
      (∃ c, body = c ++ "unauthorized")) :=
  ⟨by decide, non2xx_gives_500 ⟨401, "unauthorized", none⟩ (by decide)⟩

/-- C3: for every provisioning call that succeeds and yields
(session_url, access_token), GET /direct responds with an HTTP redirect
(3xx status) whose target URL equals session_url exactly. -/
theorem direct_redirect (r : UpstreamResponse) (url token : String)
    (h : start_bot r = .ok (url, token)) :
    start_agent r = .redirect 307 url ∧ (300 ≤ (307:Nat) ∧ (307:Nat) < 400) := by
  exact ⟨by simp [start_agent, h], by omega, by omega⟩

/-- Witness for C3: the same successful upstream response as C1's scenario. -/
theorem direct_redirect_witness :
    start_bot ⟨200, "", some [("dailyRoom", "https://x.example/room1"),
        ("dailyToken", "abc123")]⟩ = .ok ("https://x.example/room1", "abc123") ∧
    (start_agent ⟨200, "", some [("dailyRoom", "https://x.example/room1"),
        ("dailyToken", "abc123")]⟩ = .redirect 307 "https://x.example/room1" ∧
      (300 ≤ (307:Nat) ∧ (307:Nat) < 400)) :=
  ⟨rfl, direct_redirect _ "https://x.example/room1" "abc123" rfl⟩

/-- Counterexample to C4 as stated: the upstream response with status 201 —
a 2xx success status — and a JSON body carrying both known field names does
NOT make provisioning succeed: `start_bot` tests `r.status != 200` and
raises, because 201 ≠ 200. -/
theorem provision_2xx_counterexample :
    ((200:Nat) ≤ 201 ∧ (201:Nat) < 300) ∧
    List.lookup "dailyRoom"
      [("dailyRoom", "https://x.example/room1"), ("dailyToken", "abc123")]
      = some "https://x.example/room1" ∧
    List.lookup "dailyToken"
      [("dailyRoom", "https://x.example/room1"), ("dailyToken", "abc123")]
      = some "abc123" ∧
    start_bot ⟨201, "Created", some [("dailyRoom", "https://x.example/room1"),
        ("dailyToken", "abc123")]⟩ = .error (.statusError 201 "Created") :=
  ⟨by decide, rfl, rfl, rfl⟩

/-- C4 (amended): for every upstream response whose HTTP status is exactly
200 and whose JSON body contains the known session-URL and access-token
field names (`dailyRoom`, `dailyToken`), the provisioning operation succeeds
and returns the extracted (session_url, access_token) pair. -/
theorem provision_200_success (r : UpstreamResponse)
    (data : List (String × String)) (url token : String)
    (h200 : r.status = 200) (hjson : r.json = some data)
    (hroom : data.lookup "dailyRoom" = some url)
    (htok : data.lookup "dailyToken" = some token) :
    start_bot r = .ok (url, token) := by
  simp [start_bot, h200, hjson, hroom, htok]

/-- Witness for the amended C4 at a concrete 200 response. -/
theorem provision_200_success_witness :
    (⟨200, "", some [("dailyRoom", "https://x.example/room1"),
        ("dailyToken", "abc123")]⟩ : UpstreamResponse).status = 200 ∧
    start_bot ⟨200, "", some [("dailyRoom", "https://x.example/room1"),
        ("dailyToken", "abc123")]⟩ = .ok ("https://x.example/room1", "abc123") :=
  ⟨rfl, provision_200_success _ [("dailyRoom", "https://x.example/room1"),
      ("dailyToken", "abc123")] "https://x.example/room1" "abc123"
      rfl rfl rfl rfl⟩

/-- C5: for every upstream response with a success HTTP status whose JSON
body is missing the session-URL or access-token field, provisioning fails
with an error and never returns a pair with a silently defaulted value. -/
theorem provision_missing_field_fails (r : UpstreamResponse)
    (data : List (String × String))
    (_h2xx : 200 ≤ r.status ∧ r.status < 300) (hjson : r.json = some data)
    (hmiss : data.lookup "dailyRoom" = none ∨ data.lookup "dailyToken" = none) :
    (∃ e, start_bot r = .error e) ∧ ∀ p : String × String, start_bot r ≠ .ok p := by
  have herr : ∃ e, start_bot r = .error e := by
    by_cases h200 : r.status = 200
    · rcases hmiss with hm | hm
      · exact ⟨.missingField "dailyRoom", by simp [start_bot, h200, hjson, hm]⟩
      · cases hr : data.lookup "dailyRoom" with
        | none =>
            exact ⟨.missingField "dailyRoom", by simp [start_bot, h200, hjson, hr]⟩
        | some u =>
            exact ⟨.missingField "dailyToken",
              by simp [start_bot, h200, hjson, hr, hm]⟩
    · exact ⟨.statusError r.status r.text, by simp [start_bot, h200]⟩
  refine ⟨herr, ?_⟩
  intro p hp
  obtain ⟨e, he⟩ := herr
  rw [he] at hp
  exact Except.noConfusion hp

/-- Witness for C5: a 200 response whose JSON body has `dailyRoom` but no
`dailyToken`. -/
theorem provision_missing_field_fails_witness :
    ((200:Nat) ≤ 200 ∧ (200:Nat) < 300) ∧
    ((∃ e, start_bot ⟨200, "ok", some [("dailyRoom", "u")]⟩ = .error e) ∧
      ∀ p : String × String, start_bot ⟨200, "ok", some [("dailyRoom", "u")]⟩ ≠ .ok p) :=
  ⟨by decide, provision_missing_field_fails ⟨200, "ok", some [("dailyRoom", "u")]⟩
      [("dailyRoom", "u")] (by decide) rfl (Or.inr rfl)⟩

/-- C6: for every process id with no entry in the registry, GET /status/{id}
responds HTTP 404 with a message naming the missing id, and never responds
HTTP 200. -/
theorem status_unknown_404 (bot_procs : List (Nat × ProcEntry)) (pid : Nat)
    (h : bot_procs.lookup pid = none) :
    get_status bot_procs pid
      = .error 404 ("Bot with process id: " ++ toString pid ++ " not found") ∧
    ∀ st body, get_status bot_procs pid ≠ .ok st body := by
  have he : get_status bot_procs pid
      = .error 404 ("Bot with process id: " ++ toString pid ++ " not found") := by
    simp [get_status, h]
  refine ⟨he, ?_⟩
  intro st body hc
  rw [he] at hc
  exact HttpResult.noConfusion hc

/-- Witness for C6 at the spec's concrete scenario: the registry has no
entry for id 42. -/
theorem status_unknown_404_witness :
    List.lookup 42 ([] : List (Nat × ProcEntry)) = none ∧
    (get_status [] 42
        = .error 404 ("Bot with process id: " ++ toString (42:Nat) ++ " not found") ∧
      ∀ st body, get_status [] 42 ≠ .ok st body) :=
  ⟨rfl, status_unknown_404 [] 42 rfl⟩

/-- C7: for every process id present in the registry, GET /status/{id}
responds HTTP 200 with body `{"bot_id": id, "status": s}` where `s` is
"running" exactly when the handle is still alive and "finished" otherwise;
the query leaves the state unchanged and repeated queries are idempotent. -/
theorem status_known_200 (s : ServerState) (pid : Nat) (entry : ProcEntry)
    (h : s.bot_procs.lookup pid = some entry) :
    (s.step (.status pid)).2 = some (.ok 200
        [("bot_id", .num pid),
         ("status", .str (if entry.alive then "running" else "finished"))]) ∧
    (s.step (.status pid)).1 = s ∧
    (s.step (.status pid)).1.step (.status pid) = s.step (.status pid) := by
  refine ⟨?_, rfl, rfl⟩
  simp [ServerState.step, get_status, h]

/-- Witness for C7: a registry holding a live process under id 7. -/
theorem status_known_200_witness :
    (⟨[(7, ⟨true, "https://x.example/room1"⟩)]⟩ : ServerState).bot_procs.lookup 7
        = some ⟨true, "https://x.example/room1"⟩ ∧
    ((⟨[(7, ⟨true, "https://x.example/room1"⟩)]⟩ : ServerState).step
          (.status 7)).2
        = some (.ok 200 [("bot_id", .num 7),
            ("status", .str (if (true:Bool) then "running" else "finished"))]) :=
  ⟨rfl, (status_known_200 ⟨[(7, ⟨true, "https://x.example/room1"⟩)]⟩ 7
      ⟨true, "https://x.example/room1"⟩ rfl).1⟩

/-- C8: `start_bot` opens a fresh client session on every call and never
closes it: its resource trace contains one `sessionOpen` and no
`sessionClose` on every exit path (the response's connection is acquired and
released exactly once, but the `aiohttp.ClientSession` built at src/main.py
line 122 is leaked — there is no `close()` call on any path, unlike the
startup session which the lifespan hook closes at line 75). -/
theorem start_bot_leaks_session (r : UpstreamResponse) :
    (start_bot_trace r).count .sessionOpen = 1 ∧
    (start_bot_trace r).count .connAcquire = 1 ∧
    (start_bot_trace r).count .connRelease = 1 ∧
    (start_bot_trace r).count .sessionClose = 0 :=
  ⟨rfl, rfl, rfl, rfl⟩

/-- Helper for C9: running the service from any state with an empty registry
leaves the registry empty — no event's handler inserts into `bot_procs`. -/
theorem run_preserves_empty (events : List Event) :
    ∀ s : ServerState, s.bot_procs = [] → (s.run events).bot_procs = [] := by
  induction events with
  | nil => intro s h; exact h
  | cons e es ih =>
    intro s h
    cases e with
    | connect r => exact ih s h
    | direct r => exact ih s h
    | status pid => exact ih s h
    | shutdown => exact ih ⟨cleanup s.bot_procs⟩ (by simp [cleanup, h])

/-- C9: no code path ever inserts an entry into the process registry, so
from the initial state the registry stays empty across every event sequence
and GET /status/{id} answers 404 for every id at every point in time. -/
theorem registry_never_populated (events : List Event) (pid : Nat) :
    (ServerState.run initState events).bot_procs = [] ∧
    get_status (ServerState.run initState events).bot_procs pid
      = .error 404 ("Bot with process id: " ++ toString pid ++ " not found") := by
  have h := run_preserves_empty events initState rfl
  exact ⟨h, by simp [get_status, h, List.lookup]⟩

/-- C10: the GET /direct response is independent of the access token — two
successful provisioning results with the same session_url and different
tokens produce identical responses, and the response is a redirect built
from the session_url alone. -/
theorem direct_token_independent (r₁ r₂ : UpstreamResponse)
    (url tok₁ tok₂ : String)
    (h₁ : start_bot r₁ = .ok (url, tok₁)) (h₂ : start_bot r₂ = .ok (url, tok₂))
    (_hne : tok₁ ≠ tok₂) :
    start_agent r₁ = start_agent r₂ ∧ start_agent r₁ = .redirect 307 url := by
  constructor <;> simp [start_agent, h₁, h₂]

/-- Witness for C10: two upstream responses with the same `dailyRoom` and
different `dailyToken` values. -/
theorem direct_token_independent_witness :
    start_bot ⟨200, "", some [("dailyRoom", "https://x.example/room1"),
        ("dailyToken", "abc123")]⟩ = .ok ("https://x.example/room1", "abc123") ∧
    start_bot ⟨200, "", some [("dailyRoom", "https://x.example/room1"),
        ("dailyToken", "zzz999")]⟩ = .ok ("https://x.example/room1", "zzz999") ∧
    ("abc123" : String) ≠ "zzz999" ∧
    (start_agent ⟨200, "", some [("dailyRoom", "https://x.example/room1"),
          ("dailyToken", "abc123")]⟩
        = start_agent ⟨200, "", some [("dailyRoom", "https://x.example/room1"),
          ("dailyToken", "zzz999")]⟩ ∧
      start_agent ⟨200, "", some [("dailyRoom", "https://x.example/room1"),
          ("dailyToken", "abc123")]⟩ = .redirect 307 "https://x.example/room1") :=
  ⟨rfl, rfl, by decide,
    direct_token_independent _ _ "https://x.example/room1" "abc123" "zzz999"
      rfl rfl (by decide)⟩

end PipecatRunner
